import Mathlib

/-!
Verification of the raspautomator task-orchestration core.

This file gives a shallow embedding of the scheduling, monitoring and
configuration-reload logic of the repository (src/task/task.py,
src/orchestrator/orchestrator.py, src/config_watcher.py) and proves, or
refutes, the behavioural properties stated about it.

Time model: timestamps are natural numbers counting seconds since some
Monday 00:00 (the choice of a Monday-aligned epoch only fixes the labelling
of weekdays, it loses no generality).  One day is 86400 seconds.  A
configured `time_of_day` "HH:MM" is embedded as the number of seconds after
midnight of the parsed time, so it is below 86400.
-/

namespace RaspAutomator

/-- Seconds in one day. -/
def secondsPerDay : Nat := 86400

/-- English weekday names, Monday first, as produced by
`datetime.strftime("%A")` and as written in `days_of_week` of trigger.json. -/
def weekdayNames : List String :=
  ["Monday", "Tuesday", "Wednesday", "Thursday", "Friday", "Saturday", "Sunday"]

/-- Name of the weekday of timestamp `t` (epoch is a Monday midnight). -/
def weekdayName (t : Nat) : String :=
  weekdayNames.getD (t / secondsPerDay % 7) ""

/-- Embedding of the trigger.json record read by `Task.load_trigger_config`.
`time_of_day` is the parsed "HH:MM" value in seconds after midnight;
`max_duration` is `none` when the key is absent or null (the code reads it
with `self.config.get('max_duration', None)`). -/
structure TriggerConfig where
  schedule_on : Bool
  timeout_on : Bool
  time_of_day : Nat
  days_of_week : List String
  timeout_interval : Nat
  max_duration : Option Nat
deriving DecidableEq

/-- The `while` loop of `Task.calculate_next_run`:
`while next_run <= now or next_run.strftime("%A") not in self.config['days_of_week']:
    next_run += timedelta(days=1)`.
The Python loop is unbounded; `fuel` bounds the number of iterations we
unfold, and `none` means the loop has not exited within that bound. -/
def nextRunLoop (days : List String) (now : Nat) : Nat → Nat → Option Nat
  | _, 0 => none
  | cand, fuel + 1 =>
    if cand ≤ now ∨ weekdayName cand ∉ days then
      nextRunLoop days now (cand + secondsPerDay) fuel
    else
      some cand

/-- Embedding of `Task.calculate_next_run` (task.py lines 48-56).  When
scheduling is off it returns `now`; otherwise it starts from
`datetime.combine(now.date(), time_of_day)`, i.e. midnight of the current
day plus `time_of_day`, and advances one day at a time. -/
def calculate_next_run (cfg : TriggerConfig) (now : Nat) (fuel : Nat) : Option Nat :=
  if cfg.schedule_on = false then some now
  else nextRunLoop cfg.days_of_week now (now / secondsPerDay * secondsPerDay + cfg.time_of_day) fuel

/-- Modelled from the spec: a timestamp matches the configured
`{days_of_week, time_of_day}` pair when its weekday is in `days_of_week`
and its time-of-day equals `time_of_day`.  Used only to compare the code's
result against the spec's description of `next_run`. -/
def specMatches (cfg : TriggerConfig) (t : Nat) : Prop :=
  weekdayName t ∈ cfg.days_of_week ∧ t % secondsPerDay = cfg.time_of_day

instance (cfg : TriggerConfig) (t : Nat) : Decidable (specMatches cfg t) :=
  inferInstanceAs (Decidable (_ ∧ _))

/-- One observation of the environment made by the monitor loop of
`Task._execute_task_with_monitoring` at a poll tick: whether the job-body
thread is alive, and whether the per-job / global terminate marker files
exist. -/
structure PollObs where
  threadAlive : Bool
  terminateFile : Bool
  allTerminateFile : Bool

/-- The value returned by `Task._execute_task_with_monitoring`:
`ExternallyTerminated` embeds the Python `return True`, `Completed` embeds
`return False`. -/
inductive MonitorResult where
  | ExternallyTerminated
  | Completed
deriving DecidableEq

/-- The guard `if max_duration and (datetime.now() - start_time).total_seconds() > max_duration`
(task.py line 155).  Python truthiness: `None` and `0` are falsy, so those
values disable the duration check entirely. -/
def durationExceeded (maxDur : Option Nat) (elapsed : Nat) : Bool :=
  match maxDur with
  | none => false
  | some d => if d = 0 then false else decide (d < elapsed)

/-- Embedding of the monitor loop of `Task._execute_task_with_monitoring`
(task.py lines 119-182).  `obs k` is what the environment looks like at
poll tick `k` (one tick per `yield [pyRTOS.timeout(1)]`, so the tick index
is the elapsed whole seconds); `tick` is the current tick and `fuel` bounds
the number of loop iterations unfolded (`none` = still polling).  Per
iteration the code checks, in order: the `while task_thread.is_alive()`
condition (exit with `return False` when the thread died), the terminate
marker files (`return True`), and the max-duration guard (`return False`). -/
def monitorLoop (maxDur : Option Nat) (obs : Nat → PollObs) : Nat → Nat → Option MonitorResult
  | _, 0 => none
  | tick, fuel + 1 =>
    if (obs tick).threadAlive = false then some .Completed
    else if (obs tick).terminateFile = true ∨ (obs tick).allTerminateFile = true then
      some .ExternallyTerminated
    else if durationExceeded maxDur tick = true then some .Completed
    else monitorLoop maxDur obs (tick + 1) fuel

/-- Outcome of one attempt to execute the job body under monitoring, as seen
by `Task.run`: either `_execute_task_with_monitoring` finished and returned
its boolean (`finished b`, with `b = true` meaning a terminate marker was
found), or an exception was raised in the supervisor frame itself — inside
`Task.run` or the monitor, e.g. a `KeyError` on a config missing a key or a
task module without a `thread_loop` attribute — and propagates into the
orchestrator's crash wrapper (`crashed`).  An uncaught exception inside the
job body is *not* a `crashed` outcome: `thread_loop` runs on its own daemon
thread (task.py lines 95-100), Python confines a thread target's uncaught
exception to that thread, so the supervisor frame only observes the thread
dying — the monitor's `while task_thread.is_alive()` exits and it returns
`False`, i.e. `finished false`. -/
inductive ExecOutcome where
  | finished (terminated : Bool)
  | crashed
deriving DecidableEq

/-- Control position of one job's supervisor, i.e. of the generator built by
`Orchestrator._create_robust_pyRTOS_task` around `Task.run`:
`Waiting nr` is the top of the `while True` loop in `Task.run` with the
local variable `next_run = nr`; `Backoff` is the crash handler right after
the 5-second `yield [pyRTOS.timeout(5)]` was issued (a fresh `Task` is
created on the next resumption); `Terminated` means `Task.run` returned and
the wrapper hit its `break`, so the generator is finished — pyRTOS never
resumes it again, which the step function renders as an absorbing state. -/
inductive SupPhase where
  | Waiting (nextRun : Nat)
  | Backoff
  | Terminated
deriving DecidableEq

/-- What one supervisor step did, as visible to the scheduler:
`idleSleep` is the 10-second poll when both trigger flags are off,
`waitSleep` the sleep until `next_run`, `executed b post` one run of the
job body under monitoring (returning `b`) followed by a trailing sleep of
`post` seconds (`timeout_interval` when `timeout_on`, else a bare yield,
rendered as 0), `backoffSleep` the fixed crash-recovery delay, `restarted`
the re-instantiation of a fresh `Task`, and `halted` the absence of any
action once the generator has finished. -/
inductive SupAction where
  | idleSleep (secs : Nat)
  | waitSleep (secs : Nat)
  | executed (terminated : Bool) (postSleep : Nat)
  | backoffSleep (secs : Nat)
  | restarted
  | halted
deriving DecidableEq

/-- `true` exactly when the action ran the job body. -/
def isExec : SupAction → Bool
  | .executed _ _ => true
  | _ => false

/-- The environment of one supervisor step: the task's current trigger
config `cfg` (the live `self.config`, which the config watcher may have
replaced since the last step), the current wall clock `now`, the outcome
`exec` of the job body in case this step executes it, and `fresh`, the
value `calculate_next_run` yields at this step in case the step calls it
(its characterisation is proved separately about `calculate_next_run`;
when that loop diverges — see the empty-`days_of_week` theorem — no such
value exists and the real supervisor hangs instead of stepping). -/
structure SupInput where
  cfg : TriggerConfig
  now : Nat
  exec : ExecOutcome
  fresh : Nat
deriving DecidableEq

/-- One step of the per-job supervisor: one iteration of the `while True`
loop of `Task.run` (task.py lines 196-230) wrapped in the crash-isolation
loop of `Orchestrator._create_robust_pyRTOS_task` (orchestrator.py lines
95-113).  Branches, in the code's order: both flags off → sleep 10 and
`continue`; `schedule_on` with `now < next_run` → sleep until `next_run`
and `continue`; otherwise execute the body under monitoring — a terminate
result makes `Task.run` return (wrapper `break`), an exception is caught by
the wrapper which sleeps 5 seconds and re-instantiates, and a normal finish
recomputes `next_run` (`now + timeout_interval` when `timeout_on`, else a
fresh `calculate_next_run`) and performs the trailing
`timeout_interval`-sleep or bare yield of lines 227-230.  The exception
branch is reachable only by supervisor-frame exceptions (see
`ExecOutcome`), never by a fault inside the job body. -/
def supStep (i : SupInput) : SupPhase → SupPhase × SupAction
  | .Terminated => (.Terminated, .halted)
  | .Backoff => (.Waiting i.fresh, .restarted)
  | .Waiting nr =>
    if i.cfg.schedule_on = false ∧ i.cfg.timeout_on = false then
      (.Waiting nr, .idleSleep 10)
    else if i.cfg.schedule_on = true then
      if i.now < nr then (.Waiting nr, .waitSleep (nr - i.now))
      else
        match i.exec with
        | .crashed => (.Backoff, .backoffSleep 5)
        | .finished true => (.Terminated, .executed true 0)
        | .finished false =>
          (.Waiting (if i.cfg.timeout_on then i.now + i.cfg.timeout_interval else i.fresh),
           .executed false (if i.cfg.timeout_on then i.cfg.timeout_interval else 0))
    else
      match i.exec with
      | .crashed => (.Backoff, .backoffSleep 5)
      | .finished true => (.Terminated, .executed true 0)
      | .finished false => (.Waiting nr, .executed false i.cfg.timeout_interval)

/-- Iterated supervisor steps: the phase after consuming `inputs`. -/
def supRun : List SupInput → SupPhase → SupPhase
  | [], ph => ph
  | i :: rest, ph => supRun rest (supStep i ph).1

/-- The trace of (phase after the step, action of the step) pairs produced
by consuming `inputs` from phase `ph`. -/
def supTrace : List SupInput → SupPhase → List (SupPhase × SupAction)
  | [], _ => []
  | i :: rest, ph => supStep i ph :: supTrace rest (supStep i ph).1

/-- The state the config watcher and one supervisor share about one task:
the live `task_instance.config` and the supervisor's local `next_run`
variable inside `Task.run` (which no code outside `Task.run` ever writes). -/
structure TaskState where
  config : TriggerConfig
  nextRun : Nat
deriving DecidableEq

/-- Embedding of `ConfigFileHandler._reload_trigger_config`
(config_watcher.py lines 62-99).  `parsed` is the result of
`json.load` on the modified file: `none` when it raises
`json.JSONDecodeError` (or any other exception), in which case the handler
only logs and the state is untouched; `some c` when parsing succeeds, in
which case the handler performs the single assignment
`task_instance.config = new_config`. -/
def reload_trigger_config (st : TaskState) (parsed : Option TriggerConfig) : TaskState :=
  match parsed with
  | none => st
  | some c => { st with config := c }

/-- A benign environment for the monitor: the job-body thread stays alive
and no terminate marker ever appears. -/
def quietObs : Nat → PollObs :=
  fun _ => { threadAlive := true, terminateFile := false, allTerminateFile := false }

/-- An environment in which the per-job terminate marker is present from the
start while the job-body thread is alive. -/
def markerObs : Nat → PollObs :=
  fun _ => { threadAlive := true, terminateFile := true, allTerminateFile := false }

/-- The environment produced by a job body that raises an uncaught exception
right after start: the daemon worker thread is alive at the first poll and
dead from the next one on (the exception stays confined to that thread);
no terminate marker ever appears. -/
def crashObs : Nat → PollObs :=
  fun k => { threadAlive := decide (k = 0), terminateFile := false, allTerminateFile := false }

/-- Concrete schedule: every weekday at 08:00 (28800 s after midnight). -/
def cfgEveryDay8 : TriggerConfig :=
  { schedule_on := true, timeout_on := false, time_of_day := 28800,
    days_of_week := weekdayNames, timeout_interval := 0, max_duration := none }

/-- Concrete schedule with an empty `days_of_week` list. -/
def cfgEmptyDays : TriggerConfig :=
  { schedule_on := true, timeout_on := false, time_of_day := 28800,
    days_of_week := [], timeout_interval := 0, max_duration := none }

/-- Concrete config with scheduling off. -/
def cfgNoSchedule : TriggerConfig :=
  { schedule_on := false, timeout_on := false, time_of_day := 0,
    days_of_week := [], timeout_interval := 0, max_duration := none }

/-- Concrete config like `cfgEveryDay8` but with `time_of_day` 09:00:
the reloaded trigger file of the C2 scenario. -/
def cfgEveryDay9 : TriggerConfig :=
  { schedule_on := true, timeout_on := false, time_of_day := 32400,
    days_of_week := weekdayNames, timeout_interval := 0, max_duration := none }

/-- Concrete config with scheduling off and the interval timer on. -/
def cfgTimeoutOnly : TriggerConfig :=
  { schedule_on := false, timeout_on := true, time_of_day := 0,
    days_of_week := [], timeout_interval := 2, max_duration := none }

lemma monitorLoop_external_marker (maxDur : Option Nat) (obs : Nat → PollObs) (fuel : Nat) :
    ∀ tick, monitorLoop maxDur obs tick fuel = some .ExternallyTerminated →
      ∃ k, tick ≤ k ∧ (obs k).threadAlive = true ∧
        ((obs k).terminateFile = true ∨ (obs k).allTerminateFile = true) := by
  induction fuel with
  | zero => intro tick h; simp [monitorLoop] at h
  | succ n ih =>
    intro tick h
    rw [monitorLoop] at h
    split at h
    · simp at h
    · split at h
      · rename_i h1 h2
        exact ⟨tick, le_refl _, by simpa using h1, h2⟩
      · split at h
        · simp at h
        · obtain ⟨k, hk, ha, hm⟩ := ih (tick + 1) h
          exact ⟨k, by omega, ha, hm⟩

lemma monitorLoop_quiet_none (maxDur : Option Nat) (obs : Nat → PollObs)
    (hq : ∀ k, (obs k).threadAlive = true ∧ (obs k).terminateFile = false ∧
      (obs k).allTerminateFile = false)
    (hmd : ∀ k, durationExceeded maxDur k = false) (fuel : Nat) :
    ∀ tick, monitorLoop maxDur obs tick fuel = none := by
  induction fuel with
  | zero => intro tick; rfl
  | succ n ih =>
    intro tick
    obtain ⟨h1, h2, h3⟩ := hq tick
    rw [monitorLoop]
    simp only [h1, h2, h3, hmd tick]
    simpa using ih (tick + 1)

lemma monitorLoop_ends_reason (maxDur : Option Nat) (obs : Nat → PollObs)
    (hmd : ∀ k, durationExceeded maxDur k = false) (fuel : Nat) :
    ∀ tick r, monitorLoop maxDur obs tick fuel = some r →
      ∃ k, tick ≤ k ∧
        (((obs k).threadAlive = false ∧ r = .Completed) ∨
         ((obs k).threadAlive = true ∧
           ((obs k).terminateFile = true ∨ (obs k).allTerminateFile = true) ∧
           r = .ExternallyTerminated)) := by
  induction fuel with
  | zero => intro tick r h; simp [monitorLoop] at h
  | succ n ih =>
    intro tick r h
    rw [monitorLoop] at h
    split at h
    · rename_i h1
      injection h with h
      exact ⟨tick, le_refl _, Or.inl ⟨h1, h.symm⟩⟩
    · split at h
      · rename_i h1 h2
        injection h with h
        exact ⟨tick, le_refl _, Or.inr ⟨by simpa using h1, h2, h.symm⟩⟩
      · simp only [hmd tick] at h
        simp only [Bool.false_eq_true, if_false] at h
        obtain ⟨k, hk, hr⟩ := ih (tick + 1) r h
        exact ⟨k, by omega, hr⟩

/-- C1: the monitor of `Task._execute_task_with_monitoring` returns
`True` (`ExternallyTerminated`) only when a per-job or global terminate
marker is observed at a poll tick while the job thread is alive; an exit
forced by the max-duration guard, or caused by the thread dying naturally,
returns `False` (`Completed`); and a `False` result never makes the
supervisor's loop terminate, so its lifecycle continues. -/
theorem c1_externally_terminated_only_on_marker (maxDur : Option Nat) (obs : Nat → PollObs)
    (tick fuel : Nat) :
    (monitorLoop maxDur obs tick fuel = some .ExternallyTerminated →
      ∃ k, tick ≤ k ∧ (obs k).threadAlive = true ∧
        ((obs k).terminateFile = true ∨ (obs k).allTerminateFile = true)) ∧
    ((obs tick).threadAlive = true → (obs tick).terminateFile = false →
      (obs tick).allTerminateFile = false → durationExceeded maxDur tick = true →
      monitorLoop maxDur obs tick (fuel + 1) = some .Completed) ∧
    ((obs tick).threadAlive = false →
      monitorLoop maxDur obs tick (fuel + 1) = some .Completed) ∧
    (∀ (i : SupInput) (nr : Nat), i.exec = .finished false →
      (supStep i (.Waiting nr)).1 ≠ .Terminated) := by
  refine ⟨monitorLoop_external_marker maxDur obs fuel tick, ?_, ?_, ?_⟩
  · intro h1 h2 h3 h4
    rw [monitorLoop]
    simp [h1, h2, h3, h4]
  · intro h1
    rw [monitorLoop]
    simp [h1]
  · intro i nr hexec
    obtain ⟨cfg, now, exec, fresh⟩ := i
    simp only at hexec
    subst hexec
    simp only [supStep]
    split
    · simp
    · split
      · split <;> simp
      · simp

/-- Witness for C1: in a quiet environment with `max_duration = 2`, the poll
at elapsed tick 3 trips the duration guard and the monitor reports
`Completed`, not `ExternallyTerminated`. -/
theorem c1_witness : monitorLoop (some 2) quietObs 3 1 = some MonitorResult.Completed :=
  (c1_externally_terminated_only_on_marker (some 2) quietObs 3 0).2.1 rfl rfl rfl rfl

/-- C10: when `max_duration` is absent (`None`) or `0`, the duration
guard is disabled by Python truthiness, so a monitored execution can end
only because the job thread died naturally (`Completed`) or because a
terminate marker was observed (`ExternallyTerminated`); with the thread
alive and no marker forever, the monitor never returns at all. -/
theorem c10_no_duration_limit_when_unset (cfg : TriggerConfig)
    (hmd : cfg.max_duration = none ∨ cfg.max_duration = some 0)
    (obs : Nat → PollObs) (tick fuel : Nat) :
    (∀ r, monitorLoop cfg.max_duration obs tick fuel = some r →
      ∃ k, tick ≤ k ∧
        (((obs k).threadAlive = false ∧ r = .Completed) ∨
         ((obs k).threadAlive = true ∧
           ((obs k).terminateFile = true ∨ (obs k).allTerminateFile = true) ∧
           r = .ExternallyTerminated))) ∧
    ((∀ k, (obs k).threadAlive = true ∧ (obs k).terminateFile = false ∧
        (obs k).allTerminateFile = false) →
      monitorLoop cfg.max_duration obs tick fuel = none) := by
  have hoff : ∀ k, durationExceeded cfg.max_duration k = false := by
    intro k
    rcases hmd with h1 | h1 <;> simp [h1, durationExceeded]
  exact ⟨fun r h => monitorLoop_ends_reason cfg.max_duration obs hoff fuel tick r h,
    fun hq => monitorLoop_quiet_none cfg.max_duration obs hq hoff fuel tick⟩

/-- Witness for C10: with `max_duration` absent and a quiet environment the
monitor is still polling after five iterations. -/
theorem c10_witness : monitorLoop cfgEveryDay8.max_duration quietObs 0 5 = none :=
  (c10_no_duration_limit_when_unset cfgEveryDay8 (Or.inl rfl) quietObs 0 5).2
    (fun _ => ⟨rfl, rfl, rfl⟩)

lemma nextRunLoop_nil (now fuel : Nat) :
    ∀ cand, nextRunLoop [] now cand fuel = none := by
  induction fuel with
  | zero => intro cand; rfl
  | succ n ih =>
    intro cand
    rw [nextRunLoop]
    rw [if_pos (Or.inr (List.not_mem_nil _))]
    exact ih _

lemma nextRunLoop_sound (days : List String) (now fuel : Nat) :
    ∀ cand r, nextRunLoop days now cand fuel = some r →
      cand ≤ r ∧ (r - cand) % secondsPerDay = 0 ∧ now < r ∧ weekdayName r ∈ days ∧
      ∀ t, cand ≤ t → t < r → (t - cand) % secondsPerDay = 0 →
        t ≤ now ∨ weekdayName t ∉ days := by
  induction fuel with
  | zero => intro cand r h; simp [nextRunLoop] at h
  | succ n ih =>
    intro cand r h
    rw [nextRunLoop] at h
    split at h
    · rename_i hguard
      obtain ⟨h1, h2, h3, h4, h5⟩ := ih (cand + secondsPerDay) r h
      simp only [secondsPerDay] at h1 h2 ⊢
      refine ⟨by omega, by omega, h3, h4, ?_⟩
      intro t ht1 ht2 ht3
      by_cases hteq : t = cand
      · subst hteq; exact hguard
      · have htc : cand + 86400 ≤ t := by omega
        have htm : (t - (cand + secondsPerDay)) % secondsPerDay = 0 := by
          simp only [secondsPerDay]; omega
        exact h5 t (by simpa [secondsPerDay] using htc) ht2 htm
    · rename_i hguard
      injection h with h
      subst h
      push_neg at hguard
      refine ⟨le_refl _, by simp, hguard.1, hguard.2, ?_⟩
      intro t ht1 ht2 _
      omega

/-- C4 (the claim is right, the code is wrong): with `schedule_on` true
and an empty `days_of_week`, the `while` loop of `Task.calculate_next_run`
never reaches an exit — no iteration bound suffices — so the evaluator
loops forever instead of producing a "no next run" outcome (and, pyRTOS
being cooperative, it hangs the whole scheduler). -/
theorem c4_empty_days_loop_never_exits (cfg : TriggerConfig) (now fuel : Nat)
    (hs : cfg.schedule_on = true) (hd : cfg.days_of_week = []) :
    calculate_next_run cfg now fuel = none := by
  simp [calculate_next_run, hs, hd, nextRunLoop_nil]

/-- Witness for C4: the concrete empty-days config never leaves the loop
within 100 iterations (nor within any other bound). -/
theorem c4_witness : calculate_next_run cfgEmptyDays 0 100 = none :=
  c4_empty_days_loop_never_exits cfgEmptyDays 0 100 rfl rfl

/-- C9: with `schedule_on` false, `Task.calculate_next_run` returns
`now` itself — the job is always immediately eligible. -/
theorem c9_schedule_off_next_run_is_now (cfg : TriggerConfig) (now fuel : Nat)
    (h : cfg.schedule_on = false) :
    calculate_next_run cfg now fuel = some now := by
  simp [calculate_next_run, h]

/-- Witness for C9 at a concrete config and time. -/
theorem c9_witness : calculate_next_run cfgNoSchedule 999 0 = some 999 :=
  c9_schedule_off_next_run_is_now cfgNoSchedule 999 0 rfl

/-- Counterexample to C3 as stated: at `now` = Monday 08:00 (28800) with the
every-day-08:00 schedule, `now` itself matches the configured pair, so the
smallest matching timestamp ≥ `now` is `now`; yet the code (whose loop
guard uses `next_run <= now`) skips it and returns the next day, 115200. -/
theorem c3_counterexample :
    cfgEveryDay8.schedule_on = true ∧ specMatches cfgEveryDay8 28800 ∧
    calculate_next_run cfgEveryDay8 28800 3 = some 115200 ∧ 28800 < 115200 := by
  decide

/-- C3 amended: `Task.calculate_next_run` supports a single
`{days_of_week, time_of_day}` pair (the config has one `time_of_day`
string, not a list of pairs), and when it returns a value that value is the
smallest timestamp *strictly greater* than `now` (not ≥ `now`) whose
weekday is in `days_of_week` and whose time-of-day equals `time_of_day`. -/
theorem c3_next_run_least_strictly_after (cfg : TriggerConfig) (now fuel r : Nat)
    (hs : cfg.schedule_on = true) (htod : cfg.time_of_day < secondsPerDay)
    (h : calculate_next_run cfg now fuel = some r) :
    now < r ∧ specMatches cfg r ∧ ∀ t, now < t → t < r → ¬ specMatches cfg t := by
  rw [calculate_next_run, hs] at h
  simp only [Bool.true_eq_false, if_false] at h
  obtain ⟨h1, h2, h3, h4, h5⟩ := nextRunLoop_sound cfg.days_of_week now fuel _ r h
  refine ⟨h3, ⟨h4, ?_⟩, ?_⟩
  · simp only [secondsPerDay] at h1 h2 htod ⊢
    omega
  · intro t ht1 ht2 hspec
    obtain ⟨hmem, hmod⟩ := hspec
    simp only [secondsPerDay] at hmod htod
    have hc1 : now / secondsPerDay * secondsPerDay + cfg.time_of_day ≤ t := by
      simp only [secondsPerDay]; omega
    have hc2 : (t - (now / secondsPerDay * secondsPerDay + cfg.time_of_day)) %
        secondsPerDay = 0 := by
      simp only [secondsPerDay]; omega
    rcases h5 t hc1 ht2 hc2 with h6 | h6
    · omega
    · exact h6 hmem

/-- Witness for the amended C3: from `now = 0` (Monday midnight) the
concrete every-day-08:00 schedule yields 28800, which is after `now` and
matches the pair. -/
theorem c3_amended_witness : (0 : Nat) < 28800 ∧ specMatches cfgEveryDay8 28800 :=
  ⟨(c3_next_run_least_strictly_after cfgEveryDay8 0 2 28800 rfl (by decide) (by decide)).1,
   (c3_next_run_least_strictly_after cfgEveryDay8 0 2 28800 rfl (by decide) (by decide)).2.1⟩

lemma monitorLoop_detects_marker (maxDur : Option Nat) (obs : Nat → PollObs) (fuel : Nat) :
    ∀ tick k, tick ≤ k → k < tick + fuel →
      (∀ j, tick ≤ j → j ≤ k → (obs j).threadAlive = true) →
      (∀ j, tick ≤ j → j < k →
        (obs j).terminateFile = false ∧ (obs j).allTerminateFile = false) →
      (∀ j, tick ≤ j → j < k → durationExceeded maxDur j = false) →
      ((obs k).terminateFile = true ∨ (obs k).allTerminateFile = true) →
      monitorLoop maxDur obs tick fuel = some .ExternallyTerminated := by
  induction fuel with
  | zero => intro tick k h1 h2 _ _ _ _; omega
  | succ n ih =>
    intro tick k h1 h2 halive hmark hdur hk
    rw [monitorLoop]
    have ha : (obs tick).threadAlive = true := halive tick (le_refl _) h1
    rw [if_neg (by simp [ha])]
    by_cases he : tick = k
    · subst he
      rw [if_pos hk]
    · have h3 : tick < k := by omega
      obtain ⟨hm1, hm2⟩ := hmark tick (le_refl _) h3
      rw [if_neg (by simp [hm1, hm2])]
      rw [hdur tick (le_refl _) h3]
      simp only [Bool.false_eq_true, if_false]
      exact ih (tick + 1) k (by omega) (by omega)
        (fun j hj1 hj2 => halive j (by omega) hj2)
        (fun j hj1 hj2 => hmark j (by omega) hj2)
        (fun j hj1 hj2 => hdur j (by omega) hj2) hk

/-- C5: if, during a monitored execution, a terminate marker is present
at poll tick `k` while the job thread has stayed alive and no earlier exit
condition fired, the monitor returns `True`; `Task.run` then returns, the
crash wrapper of `Orchestrator._create_robust_pyRTOS_task` breaks out of
its loop, and from the resulting `Terminated` phase every later step stays
`Terminated` and never executes the job again, whatever the trigger
configuration would otherwise demand. -/
theorem c5_terminated_is_final (maxDur : Option Nat) (obs : Nat → PollObs)
    (tick k fuel : Nat) (htk : tick ≤ k) (hfuel : k < tick + fuel)
    (halive : ∀ j, tick ≤ j → j ≤ k → (obs j).threadAlive = true)
    (hmark : ∀ j, tick ≤ j → j < k →
      (obs j).terminateFile = false ∧ (obs j).allTerminateFile = false)
    (hdur : ∀ j, tick ≤ j → j < k → durationExceeded maxDur j = false)
    (hk : (obs k).terminateFile = true ∨ (obs k).allTerminateFile = true) :
    monitorLoop maxDur obs tick fuel = some .ExternallyTerminated ∧
    (∀ (i : SupInput) (nr : Nat), i.exec = .finished true →
      ¬(i.cfg.schedule_on = false ∧ i.cfg.timeout_on = false) →
      (i.cfg.schedule_on = true → nr ≤ i.now) →
      (supStep i (.Waiting nr)).1 = .Terminated) ∧
    (∀ inputs : List SupInput, ∀ p ∈ supTrace inputs .Terminated,
      p.1 = .Terminated ∧ isExec p.2 = false) := by
  refine ⟨monitorLoop_detects_marker maxDur obs fuel tick k htk hfuel halive hmark hdur hk,
    ?_, ?_⟩
  · intro i nr hexec hflags hdue
    simp only [supStep, hexec]
    rw [if_neg hflags]
    by_cases hsch : i.cfg.schedule_on = true
    · rw [if_pos hsch, if_neg (by have := hdue hsch; omega)]
    · rw [if_neg hsch]
  · intro inputs
    induction inputs with
    | nil => intro p hp; simp [supTrace] at hp
    | cons i rest ih =>
      intro p hp
      rw [supTrace] at hp
      simp only [List.mem_cons] at hp
      rcases hp with hp | hp
      · subst hp; exact ⟨rfl, rfl⟩
      · exact ih p hp

/-- Witness for C5: with the marker present from tick 0 the monitor reports
external termination immediately. -/
theorem c5_witness : monitorLoop none markerObs 0 1 = some MonitorResult.ExternallyTerminated :=
  (c5_terminated_is_final none markerObs 0 0 1 (le_refl 0) (by omega)
    (fun _ _ _ => rfl) (fun _ _ h => absurd h (by omega))
    (fun _ _ h => absurd h (by omega)) (Or.inl rfl)).1

/-- C6 (the claim is right, the code is wrong): an uncaught exception in the
job body never triggers the Backoff path.  `thread_loop` runs on a daemon
thread, so the fault dies with that thread and never reaches the wrapper's
`except` (orchestrator.py lines 103-108); what the supervisor frame
observes is `crashObs` — the thread alive at the first poll and dead at the
next — on which the monitor returns `False` (normal completion, task.py
line 182), and the supervisor's next step from a due waiting phase is an
ordinary `executed false` reschedule of the *same* `Task` instance: no
`Backoff` phase, no fixed 5-second `backoffSleep`, no fresh
re-instantiation. -/
theorem c6_job_body_fault_no_backoff :
    monitorLoop cfgTimeoutOnly.max_duration crashObs 0 2 = some MonitorResult.Completed ∧
    supStep ⟨cfgTimeoutOnly, 0, ExecOutcome.finished false, 0⟩ (.Waiting 0)
      = (.Waiting 0, .executed false 2) ∧
    (supStep ⟨cfgTimeoutOnly, 0, ExecOutcome.finished false, 0⟩ (.Waiting 0)).1
      ≠ .Backoff ∧
    (supStep ⟨cfgTimeoutOnly, 0, ExecOutcome.finished false, 0⟩ (.Waiting 0)).2
      ≠ .backoffSleep 5 := by
  decide

lemma idle_poll_aux (nr : Nat) :
    ∀ inputs : List SupInput,
      (∀ i ∈ inputs, i.cfg.schedule_on = false ∧ i.cfg.timeout_on = false) →
      supRun inputs (.Waiting nr) = .Waiting nr ∧
      ∀ p ∈ supTrace inputs (.Waiting nr), p.1 = .Waiting nr ∧ p.2 = .idleSleep 10 := by
  intro inputs
  induction inputs with
  | nil =>
    intro _
    exact ⟨rfl, by intro p hp; simp [supTrace] at hp⟩
  | cons i rest ih =>
    intro hall
    have hi : supStep i (.Waiting nr) = (.Waiting nr, .idleSleep 10) := by
      simp only [supStep]
      rw [if_pos (hall i (List.mem_cons_self i rest))]
    have hrest := ih (fun j hj => hall j (List.mem_cons_of_mem i hj))
    constructor
    · rw [supRun, hi]
      exact hrest.1
    · intro p hp
      rw [supTrace] at hp
      simp only [List.mem_cons] at hp
      rcases hp with hp | hp
      · subst hp; rw [hi]; exact ⟨rfl, rfl⟩
      · rw [hi] at hp
        exact hrest.2 p hp

/-- C8: while every observed configuration has both `schedule_on` and
`timeout_on` false, the supervisor's loop stays in the waiting phase with
its `next_run` untouched, and every single iteration is the fixed
10-second idle sleep — in particular the job body is never executed. -/
theorem c8_both_flags_off_idle_poll (inputs : List SupInput) (nr : Nat)
    (hall : ∀ i ∈ inputs, i.cfg.schedule_on = false ∧ i.cfg.timeout_on = false) :
    supRun inputs (.Waiting nr) = .Waiting nr ∧
    ∀ p ∈ supTrace inputs (.Waiting nr), p.1 = .Waiting nr ∧ p.2 = .idleSleep 10 :=
  idle_poll_aux nr inputs hall

/-- Witness for C8: two idle-poll iterations leave the phase unchanged. -/
theorem c8_witness :
    supRun [⟨cfgNoSchedule, 0, ExecOutcome.finished false, 0⟩,
            ⟨cfgNoSchedule, 10, ExecOutcome.finished false, 0⟩] (.Waiting 7) = .Waiting 7 :=
  (c8_both_flags_off_idle_poll
    [⟨cfgNoSchedule, 0, ExecOutcome.finished false, 0⟩,
     ⟨cfgNoSchedule, 10, ExecOutcome.finished false, 0⟩] 7 (by decide)).1

/-- C7: when `json.load` fails on the modified trigger file,
`_reload_trigger_config` only logs — the in-memory state, in particular the
supervisor's `TriggerConfig`, is exactly what it was before the attempt. -/
theorem c7_parse_failure_keeps_previous_config (st : TaskState) :
    reload_trigger_config st none = st := rfl

/-- C2 amended: a successful trigger reload replaces the supervisor's
`TriggerConfig` by a single whole-value assignment — the stored config
becomes the parsed value itself, never a field-by-field merge — while the
supervisor's already-computed `next_run` local is left untouched, so the
new configuration is consulted only at the next places `self.config` is
read (the loop-top flag checks and the next `calculate_next_run` call
after an execution), not for the wait already in progress. -/
theorem c2_reload_whole_value (st : TaskState) (c : TriggerConfig) :
    reload_trigger_config st (some c) = ⟨c, st.nextRun⟩ := rfl

/-- Counterexample to C2 as stated: the supervisor computed `next_run` =
28800 (Monday 08:00) under the 08:00 schedule and is waiting; the watcher
reloads a 09:00 schedule, under which the next matching run would be 32400;
but the pending `next_run` stays 28800, and at time 28800 the supervisor
executes the job instead of re-waiting until 32400 — the reload did not
change the next computed run time at the next decision point. -/
theorem c2_counterexample :
    calculate_next_run cfgEveryDay8 0 2 = some 28800 ∧
    reload_trigger_config ⟨cfgEveryDay8, 28800⟩ (some cfgEveryDay9)
      = ⟨cfgEveryDay9, 28800⟩ ∧
    calculate_next_run cfgEveryDay9 28800 2 = some 32400 ∧
    (supStep ⟨cfgEveryDay9, 28800, ExecOutcome.finished false, 0⟩ (.Waiting 28800)).2
      = .executed false 0 ∧
    (28800 : Nat) ≠ 32400 := by
  decide

end RaspAutomator
